import Mathlib

/-!
Shallow embedding of the streaming chat session core of `src/main.py`
(ChatStreamAI): the context budgeter `_limit_context_by_chars`, the
transcript store (`save_chat_history` / `load_chat_history`), the session
endpoint `create_session`, and the WebSocket session loop of
`websocket_endpoint` (receive, gateway relay, persistence, cleanup).
-/

set_option maxHeartbeats 1000000

namespace ChatStream

/-- A chat message: a role ("system" / "user" / "assistant") and text content.
Embeds the `{role, content}` dicts that `src/main.py` threads through the
session loop and the context budgeter. -/
structure Message where
  role : String
  content : String
deriving DecidableEq

/-- `MAX_CONTEXT_CHARS` (src/main.py line 64). -/
def MAX_CONTEXT_CHARS : Nat := 300000

/-- Total characters of the contents of a message list, as summed at
src/main.py lines 192 and 210 (the system message's content is the system
prompt, so `charCount` of a budgeter output counts the prompt too). -/
def charCount (l : List Message) : Nat :=
  (l.map (fun m => m.content.length)).sum

/-- The trimming while-loop of `_limit_context_by_chars`
(src/main.py lines 207-212): while `max_chars < cur` and a non-system
message remains, pop the oldest non-system message and subtract its content
length from the running count `cur`. -/
def trimLoop (max_chars : Nat) : List Message → Nat → List Message
  | [], _ => []
  | m :: rest, cur =>
    if max_chars < cur then trimLoop max_chars rest (cur - m.content.length)
    else m :: rest

/-- `_limit_context_by_chars` (src/main.py lines 167-226): system message
plus the history, trimmed oldest-first while over the character budget. -/
def _limit_context_by_chars (system_prompt : String) (history : List Message)
    (max_chars : Nat) : List Message :=
  let system_message : Message := ⟨"system", system_prompt⟩
  let current_chars := system_prompt.length + charCount history
  if current_chars ≤ max_chars then system_message :: history
  else system_message :: trimLoop max_chars history current_chars

/-- `api_messages` (src/main.py line 390): the list actually passed as
`messages=` to `client.chat.completions.create` at line 397 — the system
message plus the full, untrimmed history. -/
def api_messages (system_prompt : String) (messages : List Message) : List Message :=
  ⟨"system", system_prompt⟩ :: messages

/-- `api_messages_to_send` (src/main.py lines 380-385): the budgeted
outbound request view computed each turn. -/
def api_messages_to_send (system_prompt : String) (messages : List Message) : List Message :=
  _limit_context_by_chars system_prompt messages MAX_CONTEXT_CHARS

/-- JSON values, for the on-disk transcript records written by
`save_chat_history` and read back by `load_chat_history`. -/
inductive Json where
  | null : Json
  | bool : Bool → Json
  | num : Int → Json
  | str : String → Json
  | arr : List Json → Json
  | obj : List (String × Json) → Json

/-- A stored file's observable content: JSON that parses, or bytes on which
open/parse raises (`IOError` / `json.JSONDecodeError`). -/
inductive FileContent where
  | content : Json → FileContent
  | unreadable : FileContent

/-- The chat-history directory (`CHAT_DIR`), as a map from file names to
file contents; `none` means the file does not exist. -/
def JStore := String → Option FileContent

/-- `CHAT_DIR / f"{session_id}.json"` (src/main.py lines 109 and 122). -/
def chatFilePath (session_id : String) : String := session_id ++ ".json"

/-- The raw open-and-`json.dump` underlying `save_chat_history`: raises
(`IOError`) exactly when `writeFails` is true, otherwise overwrites the
session's record wholesale. -/
def fsWrite (path : String) (j : Json) (s : JStore) (writeFails : Bool) :
    Except String JStore :=
  if writeFails then Except.error "IOError"
  else Except.ok (fun k => if k = path then some (FileContent.content j) else s k)

/-- `save_chat_history` (src/main.py lines 107-118): dumps the message list
to `{session_id}.json`; every exception from the write is caught and only
logged, so the function always returns (never raises). -/
def save_chat_history (session_id : String) (messages : List Json) (s : JStore)
    (writeFails : Bool) : JStore :=
  match fsWrite (chatFilePath session_id) (Json.arr messages) s writeFails with
  | Except.ok s2 => s2
  | Except.error _ => s

/-- `'role' in msg` style key test on a JSON object. -/
def hasKey (k : String) : Json → Bool
  | Json.obj fields => fields.any (fun p => p.1 == k)
  | _ => false

/-- The per-entry validation of `load_chat_history` (src/main.py lines
130-132): `isinstance(msg, dict) and 'role' in msg and 'content' in msg`. -/
def isValidEntry (j : Json) : Bool :=
  (match j with | Json.obj _ => true | _ => false) && hasKey "role" j && hasKey "content" j

/-- `load_chat_history` (src/main.py lines 120-146): empty list when the
file does not exist, when it is unreadable or unparsable, or when the
parsed value is not a list of dicts each having `role` and `content`;
otherwise the parsed list as-is. -/
def load_chat_history (session_id : String) (s : JStore) : List Json :=
  match s (chatFilePath session_id) with
  | none => []
  | some FileContent.unreadable => []
  | some (FileContent.content j) =>
    match j with
    | Json.arr l => if l.all isValidEntry then l else []
    | _ => []

/-- The `try` body of `create_session` (src/main.py lines 251-255). Its only
fallible call is `save_chat_history`, which catches its own errors and
returns normally, so the body always succeeds; the `except` branch of
`create_session` corresponds to `Except.error`. -/
def create_session_body (session_id : String) (s : JStore) (writeFails : Bool) :
    Except String JStore :=
  Except.ok (save_chat_history session_id [] s writeFails)

/-- `create_session` (src/main.py lines 247-259): returns the HTTP status
and the session id of the response body, plus the resulting store. -/
def create_session (session_id : String) (s : JStore) (writeFails : Bool) :
    (Nat × Option String) × JStore :=
  match create_session_body session_id s writeFails with
  | Except.ok s2 => ((201, some session_id), s2)
  | Except.error _ => ((500, none), s)

/-- An outbound WebSocket envelope (src/main.py lines 98-103, with the
fields actually used by the session loop): `stream` carries a fragment or
the `"[DONE]"` terminator, `error` carries a `detail` text. -/
inductive Envelope where
  | stream : String → Envelope
  | error : String → Envelope
deriving DecidableEq

/-- The observable state of one live session in `websocket_endpoint`
(src/main.py lines 324-471):
`messages` is the in-memory transcript, `persisted` this session's durable
record (at the message level; serialization is modelled separately by
`save_chat_history` / `load_chat_history`), `saves` the arguments of every
`save_chat_history` call made so far (oldest first), `sent` the envelopes
actually delivered to the client, `connected` the client connection state
read by `send_ws_message`, `warnings` the count of the
"OpenAI response was empty" warning (line 437), and `registry` whether
`session_id` is in `active_connections`. -/
structure SessState where
  messages : List Message
  persisted : Option (List Message)
  saves : List (List Message)
  sent : List Envelope
  connected : Bool
  warnings : Nat
  registry : Bool
deriving DecidableEq

/-- `send_ws_message` (src/main.py lines 149-163): sends only while the
client state is CONNECTED; on a closed connection the send is skipped (and
any exception is caught and logged), so it is a no-op. -/
def send_ws_message (st : SessState) (e : Envelope) : SessState :=
  if st.connected then { st with sent := st.sent ++ [e] } else st

/-- One event observed while iterating the gateway's fragment stream
(src/main.py lines 402-408): a content chunk (chunks whose `delta.content`
is `None` are skipped by the guard at line 404 and are not modelled), or
the client connection dropping, after which `send_ws_message`'s guard
suppresses all further sends. -/
inductive FragEv where
  | frag : String → FragEv
  | drop : FragEv
deriving DecidableEq

/-- How the gateway stream terminates after its fragment events: normal end
(line 410 is reached) or an exception caught by one of the handlers at
lines 414-428, which sends one error envelope with the given detail. -/
inductive GatewayResult where
  | ok : GatewayResult
  | failed : String → GatewayResult
deriving DecidableEq

/-- One gateway turn: the observed stream events, then how it ended. -/
structure GatewayTurn where
  events : List FragEv
  result : GatewayResult
deriving DecidableEq

/-- One inbound item of the receive loop (src/main.py lines 347-367):
text that is not JSON (`json.JSONDecodeError`, line 356), JSON without a
well-formed `type` field (`ValidationError`, line 360; raises `KeyError`
if scanned by the drain at line 435), or a validated request envelope
`{type, content}`, carrying the gateway behaviour that the turn would
observe if it starts a chat turn. -/
inductive Inbound where
  | malformedJson : Inbound
  | noTypeField : Inbound
  | request : String → Option String → GatewayTurn → Inbound
deriving DecidableEq

/-- The fragment relay loop (src/main.py lines 402-408): accumulate each
chunk into the buffer and send it to the client; a connection drop flips
the client state, after which sends are suppressed but iteration and
accumulation continue. Returns the state and the accumulated buffer. -/
def relay : SessState → String → List FragEv → SessState × String
  | st, acc, [] => (st, acc)
  | st, acc, FragEv.frag c :: evs =>
    relay (send_ws_message st (Envelope.stream c)) (acc ++ c) evs
  | st, acc, FragEv.drop :: evs => relay { st with connected := false } acc evs

/-- The `finally` block (src/main.py lines 454-471): remove the session id
from `active_connections` (the best-effort close of the handle has no
further observable effect in this model). -/
def cleanup (st : SessState) : SessState := { st with registry := false }

/-- Python truthiness of `request_data.content` at line 370: present and
non-empty. -/
def isTruthy : Option String → Bool
  | none => false
  | some s => !(s == "")

/-- Whether an inbound item raises `json.JSONDecodeError` inside
`websocket.iter_json()` (so the async list comprehension at line 435 raises
while being built). -/
def isMalformedJson : Inbound → Bool
  | Inbound.malformedJson => true
  | _ => false

/-- The `any(m['type'] == 'error' for m in drained)` scan at line 435 over
the fully-built drained list: short-circuits at the first `type == "error"`
item; an item without a `type` field raises `KeyError` (`none`). -/
def drainScan : List Inbound → Option Bool
  | [] => some false
  | Inbound.malformedJson :: _ => none
  | Inbound.noTypeField :: _ => none
  | Inbound.request t _ _ :: rest =>
    if t == "error" then some true else drainScan rest

/-- The full `[msg async for msg in websocket.iter_json()]` drain plus the
`any(...)` scan (src/main.py line 435): consumes every remaining inbound
message until the client disconnects. `none` means an exception escaped
(propagating to the handler at lines 449-453); `some b` is the value of the
`any(...)`. Building the list fails if any drained text is not JSON. -/
def drainAll (q : List Inbound) : Option Bool :=
  if q.any isMalformedJson then none else drainScan q

/-- The body of a chat turn up to the end of the try/except around the
gateway call (src/main.py lines 370-428): append the user message, relay
the stream, then send either the `"[DONE]"` terminator (line 411) on
normal end or one typed error envelope (lines 414-428) on failure.
(The budgeted view computed at lines 380-385 is pure and its result unused
by the call — see `api_messages` — so it has no effect here.)
Returns the state and the accumulated assistant buffer. -/
def turnCore (st : SessState) (u : String) (gw : GatewayTurn) : SessState × String :=
  let st1 := { st with messages := st.messages ++ [⟨"user", u⟩] }
  let p := relay st1 "" gw.events
  match gw.result with
  | GatewayResult.ok => (send_ws_message p.1 (Envelope.stream "[DONE]"), p.2)
  | GatewayResult.failed d => (send_ws_message p.1 (Envelope.error d), p.2)

/-- The persistence branch (src/main.py lines 432-434): append the
assistant message and save the whole transcript. -/
def persistTurn (st : SessState) (acc : String) : SessState :=
  let M := st.messages ++ [⟨"assistant", acc⟩]
  { st with messages := M, persisted := some M, saves := st.saves ++ [M] }

/-- The `while True` receive loop of `websocket_endpoint`
(src/main.py lines 344-471) over the session's inbound items; the end of
the list is the client disconnect (receive raises `WebSocketDisconnect`,
line 353, breaking to the `finally` cleanup — likewise receive on an
already-dropped connection). Non-`chat_message` types and empty content
are logged and ignored (line 441-443). When the accumulated assistant
buffer is empty, the `elif` at line 435 drains the remaining inbound
messages: if the drain raises, the outer handler (lines 449-453) sends one
critical error envelope and cleanup runs; otherwise the warning fires only
when no drained item had `type == "error"`, and the session then ends at
the next receive. -/
def websocket_loop : SessState → List Inbound → SessState
  | st, [] => cleanup st
  | st, ev :: rest =>
    if st.connected then
      match ev with
      | Inbound.malformedJson =>
        websocket_loop (send_ws_message st (Envelope.error "Invalid JSON format.")) rest
      | Inbound.noTypeField =>
        websocket_loop (send_ws_message st (Envelope.error "Invalid message structure.")) rest
      | Inbound.request t c gw =>
        if t == "chat_message" && isTruthy c then
          let r := turnCore st (c.getD "") gw
          if r.2 == "" then
            match drainAll rest with
            | none =>
              cleanup (send_ws_message r.1
                (Envelope.error "A critical server error occurred. Connection closing."))
            | some true => cleanup r.1
            | some false => cleanup { r.1 with warnings := r.1.warnings + 1 }
          else websocket_loop (persistTurn r.1 r.2) rest
        else websocket_loop st rest
    else cleanup st

/-- The session state right after `websocket.accept()` (src/main.py lines
335-340): registered in `active_connections`, in-memory transcript loaded
from the persisted record (`prev = none` models a missing or invalid
record, for which `load_chat_history` yields `[]`). -/
def initSession (prev : Option (List Message)) : SessState :=
  { messages := prev.getD [], persisted := prev, saves := [], sent := [],
    connected := true, warnings := 0, registry := true }

/-- The contents of the `frag` events of a stream, in order: what the loop
at lines 402-408 accumulates. -/
def fragContents : List FragEv → List String
  | [] => []
  | FragEv.frag c :: evs => c :: fragContents evs
  | FragEv.drop :: evs => fragContents evs

/-- The append-log discipline of the persisted transcript: each
successive save appends exactly one user message followed by exactly one
assistant message to the previously persisted list. -/
def savesChain : List Message → List (List Message) → Prop
  | _, [] => True
  | base, s :: rest =>
    (∃ u a, s = base ++ [⟨"user", u⟩, ⟨"assistant", a⟩]) ∧ savesChain s rest

/-- A message content one character over `MAX_CONTEXT_CHARS`. -/
def bigContent : String := String.mk (List.replicate 300001 'x')

/- ------------------------------------------------------------------ -/
/- Theorems.                                                           -/
/- ------------------------------------------------------------------ -/

theorem charCount_nil : charCount [] = 0 := rfl

theorem charCount_cons (m : Message) (l : List Message) :
    charCount (m :: l) = m.content.length + charCount l := by
  simp [charCount]

/-- The trimming loop only ever removes an oldest-first contiguous chunk:
its result is a suffix (`drop k`) of the history it was given. -/
theorem trimLoop_exists_drop (maxc : Nat) :
    ∀ (hist : List Message) (cur : Nat),
      ∃ k, k ≤ hist.length ∧ trimLoop maxc hist cur = hist.drop k := by
  intro hist
  induction hist with
  | nil => intro cur; exact ⟨0, by simp, by simp [trimLoop]⟩
  | cons m rest ih =>
    intro cur
    by_cases h : maxc < cur
    · obtain ⟨k, hk, he⟩ := ih (cur - m.content.length)
      refine ⟨k + 1, by simpa using Nat.succ_le_succ hk, ?_⟩
      simp [trimLoop, h, he]
    · exact ⟨0, by simp, by simp [trimLoop, h]⟩

/-- The trimming loop lands under the budget whenever the fixed part `S`
(the system prompt's length) already fits, given that `cur` correctly
counts `S` plus the remaining history. -/
theorem trimLoop_le (maxc : Nat) :
    ∀ (hist : List Message) (S cur : Nat),
      cur = S + charCount hist → S ≤ maxc →
      S + charCount (trimLoop maxc hist cur) ≤ maxc := by
  intro hist
  induction hist with
  | nil => intro S cur h hS; simpa [trimLoop, charCount] using hS
  | cons m rest ih =>
    intro S cur h hS
    simp only [trimLoop]
    by_cases hlt : maxc < cur
    · rw [if_pos hlt]
      refine ih S (cur - m.content.length) ?_ hS
      rw [h, charCount_cons]
      omega
    · rw [if_neg hlt, ← h]
      omega

/-- C2: for every history `H` and budget `B` with `len(systemPrompt) ≤ B`,
the list returned by `_limit_context_by_chars` has total character count
(system prompt plus kept message contents) `≤ B`; and for every input its
first element is the system message, which is always present. -/
theorem spec_c2 (system_prompt : String) (H : List Message) (B : Nat) :
    (∃ t, _limit_context_by_chars system_prompt H B =
      Message.mk "system" system_prompt :: t) ∧
    (system_prompt.length ≤ B →
      charCount (_limit_context_by_chars system_prompt H B) ≤ B) := by
  constructor
  · unfold _limit_context_by_chars
    by_cases h : system_prompt.length + charCount H ≤ B
    · exact ⟨H, by simp [h]⟩
    · exact ⟨trimLoop B H (system_prompt.length + charCount H), by simp [h]⟩
  · intro hle
    unfold _limit_context_by_chars
    by_cases h : system_prompt.length + charCount H ≤ B
    · simp [h, charCount_cons]
    · simp only [h, if_false, charCount_cons]
      exact trimLoop_le B H system_prompt.length _ rfl hle

/-- C2 witness at a concrete input. -/
theorem spec_c2_witness :
    charCount (_limit_context_by_chars "s" [⟨"user", "hello"⟩] 10) ≤ 10 :=
  (spec_c2 "s" [⟨"user", "hello"⟩] 10).2 (by decide)

/-- C8: the messages dropped by the budgeter form a contiguous oldest-first
chunk of `H`: the kept non-system messages are exactly the suffix
`H.drop k` of `H`, in original order, behind the system message. -/
theorem spec_c8 (system_prompt : String) (H : List Message) (B : Nat) :
    ∃ k, k ≤ H.length ∧ _limit_context_by_chars system_prompt H B =
      Message.mk "system" system_prompt :: H.drop k := by
  unfold _limit_context_by_chars
  by_cases h : system_prompt.length + charCount H ≤ B
  · exact ⟨0, by simp, by simp [h]⟩
  · obtain ⟨k, hk, he⟩ :=
      trimLoop_exists_drop B H (system_prompt.length + charCount H)
    exact ⟨k, hk, by simp [h, he]⟩

theorem bigContent_length : bigContent.length = 300001 := by
  rw [bigContent, String.length_mk]
  exact List.length_replicate 300001 'x'

theorem Message_content (r c : String) : (Message.mk r c).content = c := rfl

theorem trimLoop_nil (maxc cur : Nat) : trimLoop maxc [] cur = [] := rfl

theorem trimLoop_cons_pos (maxc : Nat) (m : Message) (rest : List Message)
    (cur : Nat) (h : maxc < cur) :
    trimLoop maxc (m :: rest) cur = trimLoop maxc rest (cur - m.content.length) := by
  simp [trimLoop, h]

/-- When the total exceeds the budget, the budgeter takes its trimming
branch. -/
theorem limit_context_of_lt (system_prompt : String) (H : List Message) (B : Nat)
    (h : B < system_prompt.length + charCount H) :
    _limit_context_by_chars system_prompt H B =
      Message.mk "system" system_prompt ::
        trimLoop B H (system_prompt.length + charCount H) := by
  unfold _limit_context_by_chars
  simp [Nat.not_le.mpr h]

/-- C1 (code bug): at a history whose character count exceeds
`MAX_CONTEXT_CHARS`, the list the code passes to the completion call
(`api_messages`, src/main.py lines 390 and 397) is not the budgeted view
`api_messages_to_send` (lines 380-385) — the trimmed list is computed and
logged but never sent. -/
theorem spec_c1_code_divergence :
    api_messages "" [⟨"user", bigContent⟩] ≠
      api_messages_to_send "" [⟨"user", bigContent⟩] := by
  have hc : ("" : String).length + charCount [(⟨"user", bigContent⟩ : Message)]
      = 300001 := by
    rw [charCount_cons, charCount_nil, String.length_empty, Message_content,
      bigContent_length]
  have h1 : api_messages_to_send "" [⟨"user", bigContent⟩] = [⟨"system", ""⟩] := by
    unfold api_messages_to_send
    rw [limit_context_of_lt "" [⟨"user", bigContent⟩] MAX_CONTEXT_CHARS
      (by rw [hc]; norm_num [MAX_CONTEXT_CHARS])]
    rw [hc, trimLoop_cons_pos MAX_CONTEXT_CHARS _ _ _
      (by norm_num [MAX_CONTEXT_CHARS]), trimLoop_nil]
  intro h
  rw [h1] at h
  simp [api_messages] at h

/-- C5: saving a valid transcript (a list of records each having `role` and
`content` fields) and loading it back returns exactly that transcript. -/
theorem spec_c5 (session_id : String) (T : List Json) (s : JStore)
    (h : T.all isValidEntry = true) :
    load_chat_history session_id (save_chat_history session_id T s false) = T := by
  unfold save_chat_history fsWrite load_chat_history
  simp [h]

/-- C5 witness at a concrete transcript. -/
theorem spec_c5_witness :
    load_chat_history "s" (save_chat_history "s"
      [Json.obj [("role", Json.str "user"), ("content", Json.str "hi")]]
      (fun _ => none) false)
    = [Json.obj [("role", Json.str "user"), ("content", Json.str "hi")]] :=
  spec_c5 "s" _ _ (by rfl)

/-- C9: `load_chat_history` returns the persisted list when a well-formed
record exists, the empty list when no record exists, and the empty list —
it is a total function, propagating no error — when the record is
unreadable or is not a list of records each having `role` and `content`. -/
theorem spec_c9 (session_id : String) (s : JStore) :
    (s (chatFilePath session_id) = none → load_chat_history session_id s = []) ∧
    (∀ l, s (chatFilePath session_id) = some (FileContent.content (Json.arr l)) →
      l.all isValidEntry = true → load_chat_history session_id s = l) ∧
    (∀ fc, s (chatFilePath session_id) = some fc →
      (∀ l, fc = FileContent.content (Json.arr l) → l.all isValidEntry = false) →
      load_chat_history session_id s = []) := by
  refine ⟨?_, ?_, ?_⟩
  · intro h; simp [load_chat_history, h]
  · intro l h hv; simp [load_chat_history, h, hv]
  · intro fc h hm
    cases fc with
    | unreadable => simp [load_chat_history, h]
    | content j =>
      cases j with
      | arr l => simp [load_chat_history, h, hm l rfl]
      | null => simp [load_chat_history, h]
      | bool b => simp [load_chat_history, h]
      | num n => simp [load_chat_history, h]
      | str s2 => simp [load_chat_history, h]
      | obj fields => simp [load_chat_history, h]

/-- C9 witness: a missing record loads as the empty list. -/
theorem spec_c9_witness : load_chat_history "a" (fun _ => none) = [] :=
  (spec_c9 "a" (fun _ => none)).1 rfl

/-- C10: `create_session` answers 201 with the fresh id even when the
initial write fails — `save_chat_history` swallows every I/O error, so the
500 branch is unreachable for storage write failures, and on failure the
id's empty transcript is not on disk (the store is unchanged). -/
theorem spec_c10 (session_id : String) (s : JStore) (writeFails : Bool) :
    (create_session session_id s writeFails).1 = (201, some session_id) ∧
    (writeFails = true → (create_session session_id s writeFails).2 = s) := by
  constructor
  · rfl
  · intro h; subst h; rfl

/-- C10 witness at a concrete failing-write world. -/
theorem spec_c10_witness :
    (create_session "abc" (fun _ => none) true).1 = (201, some "abc") ∧
    (create_session "abc" (fun _ => none) true).2 = (fun _ => none) :=
  ⟨(spec_c10 "abc" (fun _ => none) true).1,
    (spec_c10 "abc" (fun _ => none) true).2 rfl⟩

theorem send_ws_message_of_connected (st : SessState) (e : Envelope)
    (h : st.connected = true) :
    send_ws_message st e = { st with sent := st.sent ++ [e] } := by
  simp [send_ws_message, h]

theorem send_ws_message_of_not_connected (st : SessState) (e : Envelope)
    (h : st.connected = false) : send_ws_message st e = st := by
  simp [send_ws_message, h]

/-- `send_ws_message` touches only the `sent` log. -/
theorem send_ws_message_shape (st : SessState) (e : Envelope) :
    ∃ se, send_ws_message st e = { st with sent := se } := by
  by_cases h : st.connected = true
  · exact ⟨st.sent ++ [e], send_ws_message_of_connected st e h⟩
  · refine ⟨st.sent, ?_⟩
    rw [send_ws_message_of_not_connected st e (by simpa using h)]

/-- The relay loop touches only the `sent` log and the connection flag. -/
theorem relay_shape (evs : List FragEv) :
    ∀ (st : SessState) (acc : String),
      ∃ se co, (relay st acc evs).1 = { st with sent := se, connected := co } := by
  induction evs with
  | nil => intro st acc; exact ⟨st.sent, st.connected, rfl⟩
  | cons ev evs ih =>
    intro st acc
    cases ev with
    | frag c =>
      obtain ⟨se0, h0⟩ := send_ws_message_shape st (Envelope.stream c)
      obtain ⟨se, co, h⟩ := ih (send_ws_message st (Envelope.stream c)) (acc ++ c)
      refine ⟨se, co, ?_⟩
      show (relay (send_ws_message st (Envelope.stream c)) (acc ++ c) evs).1 = _
      rw [h, h0]
    | drop =>
      obtain ⟨se, co, h⟩ := ih { st with connected := false } acc
      refine ⟨se, co, ?_⟩
      show (relay { st with connected := false } acc evs).1 = _
      rw [h]

/-- The buffer accumulated by the relay loop is the concatenation of all
fragment contents, drops notwithstanding. -/
theorem relay_acc (evs : List FragEv) :
    ∀ (st : SessState) (acc : String),
      (relay st acc evs).2 = (fragContents evs).foldl (· ++ ·) acc := by
  induction evs with
  | nil => intro st acc; rfl
  | cons ev evs ih =>
    intro st acc
    cases ev with
    | frag c => exact ih (send_ws_message st (Envelope.stream c)) (acc ++ c)
    | drop => exact ih { st with connected := false } acc

theorem fragContents_map_frag (l : List String) :
    fragContents (l.map FragEv.frag) = l := by
  induction l with
  | nil => rfl
  | cons c l ih => simp [fragContents, ih]

/-- While the client is connected, relaying a drop-free fragment list
delivers exactly those fragments, in order. -/
theorem relay_frags_connected (fs : List String) :
    ∀ (st : SessState) (acc : String), st.connected = true →
      relay st acc (fs.map FragEv.frag) =
        ({ st with sent := st.sent ++ fs.map Envelope.stream },
          fs.foldl (· ++ ·) acc) := by
  induction fs with
  | nil => intro st acc h; simp [relay]
  | cons f fs ih =>
    intro st acc h
    show relay (send_ws_message st (Envelope.stream f)) (acc ++ f) (fs.map FragEv.frag) = _
    rw [send_ws_message_of_connected st _ h]
    rw [ih { st with sent := st.sent ++ [Envelope.stream f] } (acc ++ f) h]
    simp [List.append_assoc]

theorem set_connected_false_eq (st : SessState) (h : st.connected = false) :
    { st with connected := false } = st := by
  cases st
  simp_all

/-- After the client has disconnected, the relay loop delivers nothing
further: it only accumulates. -/
theorem relay_not_connected (evs : List FragEv) :
    ∀ (st : SessState) (acc : String), st.connected = false →
      relay st acc evs = (st, (fragContents evs).foldl (· ++ ·) acc) := by
  induction evs with
  | nil => intro st acc h; rfl
  | cons ev evs ih =>
    intro st acc h
    cases ev with
    | frag c =>
      show relay (send_ws_message st (Envelope.stream c)) (acc ++ c) evs = _
      rw [send_ws_message_of_not_connected st _ h]
      exact ih st (acc ++ c) h
    | drop =>
      show relay { st with connected := false } acc evs = _
      rw [set_connected_false_eq st h]
      exact ih st acc h

theorem relay_append (l1 l2 : List FragEv) :
    ∀ (st : SessState) (acc : String),
      relay st acc (l1 ++ l2) =
        relay (relay st acc l1).1 (relay st acc l1).2 l2 := by
  induction l1 with
  | nil => intro st acc; rfl
  | cons ev l1 ih =>
    intro st acc
    cases ev with
    | frag c => exact ih (send_ws_message st (Envelope.stream c)) (acc ++ c)
    | drop => exact ih { st with connected := false } acc

/-- A session whose client has disconnected goes straight to cleanup at the
next receive, whatever is left in flight. -/
theorem websocket_loop_not_connected (st : SessState) (q : List Inbound)
    (h : st.connected = false) : websocket_loop st q = cleanup st := by
  cases q with
  | nil => rfl
  | cons ev rest => simp [websocket_loop, h]

theorem String_join_eq_foldl (fs : List String) :
    String.join fs = fs.foldl (· ++ ·) "" := rfl

/-- A chat turn whose stream yields drop-free fragments `fs` and then
raises: the fragments are relayed, then exactly one error envelope. -/
theorem turnCore_frags_failed (st : SessState) (u : String) (fs : List String)
    (d : String) (h : st.connected = true) :
    turnCore st u ⟨fs.map FragEv.frag, GatewayResult.failed d⟩ =
      ({ st with
         messages := st.messages ++ [⟨"user", u⟩],
         sent := st.sent ++ (fs.map Envelope.stream ++ [Envelope.error d]) },
       fs.foldl (· ++ ·) "") := by
  have key : ∀ (s1 : SessState), s1.connected = true →
      (send_ws_message (relay s1 "" (fs.map FragEv.frag)).1 (Envelope.error d),
        (relay s1 "" (fs.map FragEv.frag)).2) =
      ({ s1 with sent := s1.sent ++ (fs.map Envelope.stream ++ [Envelope.error d]) },
        fs.foldl (· ++ ·) "") := by
    intro s1 h1
    rw [relay_frags_connected fs s1 "" h1]
    simp [send_ws_message, h1, List.append_assoc]
  exact key { st with messages := st.messages ++ [⟨"user", u⟩] } h

/-- A chat turn whose stream yields drop-free fragments `fs` and ends
normally: the fragments are relayed, then the `"[DONE]"` terminator. -/
theorem turnCore_frags_ok (st : SessState) (u : String) (fs : List String)
    (h : st.connected = true) :
    turnCore st u ⟨fs.map FragEv.frag, GatewayResult.ok⟩ =
      ({ st with
         messages := st.messages ++ [⟨"user", u⟩],
         sent := st.sent ++ (fs.map Envelope.stream ++ [Envelope.stream "[DONE]"]) },
       fs.foldl (· ++ ·) "") := by
  have key : ∀ (s1 : SessState), s1.connected = true →
      (send_ws_message (relay s1 "" (fs.map FragEv.frag)).1 (Envelope.stream "[DONE]"),
        (relay s1 "" (fs.map FragEv.frag)).2) =
      ({ s1 with sent := s1.sent ++ (fs.map Envelope.stream ++ [Envelope.stream "[DONE]"]) },
        fs.foldl (· ++ ·) "") := by
    intro s1 h1
    rw [relay_frags_connected fs s1 "" h1]
    simp [send_ws_message, h1, List.append_assoc]
  exact key { st with messages := st.messages ++ [⟨"user", u⟩] } h

/-- A chat turn during which the client drops after the fragments `pre`:
only `pre` is delivered; the rest (including any terminator or error
envelope) is suppressed, while accumulation continues over `post`. -/
theorem turnCore_drop (st : SessState) (u : String) (pre post : List String)
    (res : GatewayResult) (h : st.connected = true) :
    turnCore st u ⟨pre.map FragEv.frag ++ FragEv.drop :: post.map FragEv.frag, res⟩ =
      ({ st with
         messages := st.messages ++ [⟨"user", u⟩],
         sent := st.sent ++ pre.map Envelope.stream, connected := false },
       String.join (pre ++ post)) := by
  have hrel : ∀ (s1 : SessState), s1.connected = true →
      relay s1 "" (pre.map FragEv.frag ++ FragEv.drop :: post.map FragEv.frag) =
      ({ s1 with sent := s1.sent ++ pre.map Envelope.stream, connected := false },
        String.join (pre ++ post)) := by
    intro s1 h1
    rw [relay_append]
    rw [relay_frags_connected pre s1 "" h1]
    rw [show relay { s1 with sent := s1.sent ++ pre.map Envelope.stream }
      (pre.foldl (· ++ ·) "") (FragEv.drop :: post.map FragEv.frag) =
      relay { s1 with sent := s1.sent ++ pre.map Envelope.stream, connected := false }
      (pre.foldl (· ++ ·) "") (post.map FragEv.frag) from rfl]
    rw [relay_not_connected _ _ _ rfl, fragContents_map_frag]
    rw [String_join_eq_foldl, List.foldl_append]
  cases res with
  | ok =>
    have key : ∀ (s1 : SessState), s1.connected = true →
        (send_ws_message
          (relay s1 "" (pre.map FragEv.frag ++ FragEv.drop :: post.map FragEv.frag)).1
          (Envelope.stream "[DONE]"),
         (relay s1 "" (pre.map FragEv.frag ++ FragEv.drop :: post.map FragEv.frag)).2) =
        ({ s1 with sent := s1.sent ++ pre.map Envelope.stream, connected := false },
          String.join (pre ++ post)) := by
      intro s1 h1
      rw [hrel s1 h1]
      rw [send_ws_message_of_not_connected _ _ rfl]
    exact key { st with messages := st.messages ++ [⟨"user", u⟩] } h
  | failed d =>
    have key : ∀ (s1 : SessState), s1.connected = true →
        (send_ws_message
          (relay s1 "" (pre.map FragEv.frag ++ FragEv.drop :: post.map FragEv.frag)).1
          (Envelope.error d),
         (relay s1 "" (pre.map FragEv.frag ++ FragEv.drop :: post.map FragEv.frag)).2) =
        ({ s1 with sent := s1.sent ++ pre.map Envelope.stream, connected := false },
          String.join (pre ++ post)) := by
      intro s1 h1
      rw [hrel s1 h1]
      rw [send_ws_message_of_not_connected _ _ rfl]
    exact key { st with messages := st.messages ++ [⟨"user", u⟩] } h

/-- Unfolds one chat turn of the receive loop for a well-formed
`chat_message` request with non-empty content. -/
theorem websocket_loop_chat (st : SessState) (u : String) (gw : GatewayTurn)
    (rest : List Inbound) (hc : st.connected = true) (hu : u ≠ "") :
    websocket_loop st (Inbound.request "chat_message" (some u) gw :: rest) =
      (if (turnCore st u gw).2 == "" then
        match drainAll rest with
        | none => cleanup (send_ws_message (turnCore st u gw).1
            (Envelope.error "A critical server error occurred. Connection closing."))
        | some true => cleanup (turnCore st u gw).1
        | some false => cleanup { (turnCore st u gw).1 with
            warnings := (turnCore st u gw).1.warnings + 1 }
      else websocket_loop (persistTurn (turnCore st u gw).1 (turnCore st u gw).2) rest) := by
  simp [websocket_loop, hc, isTruthy, hu]

/-- C3 (amended): if the gateway stream raises after yielding fragments of
which at least one is non-empty (the accumulated content is non-empty), the
client receives exactly the relayed fragments followed by exactly one error
envelope and no `"[DONE]"` terminator, the assistant message holding the
accumulated content is appended and persisted, and the loop continues on
the remaining inbound queue (the session is back to awaiting requests). -/
theorem spec_c3_amended (st : SessState) (u : String) (fs : List String)
    (d : String) (rest : List Inbound) (hc : st.connected = true) (hu : u ≠ "")
    (hacc : String.join fs ≠ "") :
    websocket_loop st (Inbound.request "chat_message" (some u)
        ⟨fs.map FragEv.frag, GatewayResult.failed d⟩ :: rest) =
      websocket_loop
        { st with
          messages := st.messages ++ [⟨"user", u⟩, ⟨"assistant", String.join fs⟩],
          persisted := some (st.messages ++ [⟨"user", u⟩, ⟨"assistant", String.join fs⟩]),
          saves := st.saves ++ [st.messages ++ [⟨"user", u⟩, ⟨"assistant", String.join fs⟩]],
          sent := st.sent ++ (fs.map Envelope.stream ++ [Envelope.error d]) } rest := by
  rw [websocket_loop_chat st u _ rest hc hu]
  rw [turnCore_frags_failed st u fs d hc]
  have hne : (fs.foldl (· ++ ·) "" == "") = false := by
    rw [← String_join_eq_foldl]
    exact beq_eq_false_iff_ne.mpr hacc
  simp only [hne, Bool.false_eq_true, if_false]
  simp [persistTurn, List.append_assoc, String_join_eq_foldl]

/-- C4 (amended): on a normal gateway end with zero fragments, the
`"[DONE]"` terminator is still sent (and nothing else), the empty-response
warning is logged, no assistant message is appended and nothing is
persisted; but the empty-response branch drains the remaining inbound
queue, so the session processes none of it and goes straight to cleanup
(here `drainAll rest = some false`: the drained messages parse and none has
type `"error"`). -/
theorem spec_c4_amended (st : SessState) (u : String) (rest : List Inbound)
    (hc : st.connected = true) (hu : u ≠ "") (hrest : drainAll rest = some false) :
    websocket_loop st
        (Inbound.request "chat_message" (some u) ⟨[], GatewayResult.ok⟩ :: rest) =
      cleanup { st with
        messages := st.messages ++ [⟨"user", u⟩],
        sent := st.sent ++ [Envelope.stream "[DONE]"],
        warnings := st.warnings + 1 } := by
  rw [websocket_loop_chat st u _ rest hc hu]
  have h0 := turnCore_frags_ok st u [] hc
  simp only [List.map_nil, List.nil_append, List.foldl_nil] at h0
  rw [h0]
  simp [hrest]

/-- C6 (amended): if the client drops mid-stream after the fragments `pre`,
no envelope at all is delivered after the drop (later fragments, the
terminator or a gateway error alike), the accumulated partial content —
provided it is non-empty — is persisted as the assistant message of the
turn, and after cleanup the session is no longer in the registry. -/
theorem spec_c6_amended (st : SessState) (u : String) (pre post : List String)
    (res : GatewayResult) (rest : List Inbound) (hc : st.connected = true)
    (hu : u ≠ "") (hacc : String.join (pre ++ post) ≠ "") :
    websocket_loop st (Inbound.request "chat_message" (some u)
        ⟨pre.map FragEv.frag ++ FragEv.drop :: post.map FragEv.frag, res⟩ :: rest) =
      cleanup { st with
        messages := st.messages ++
          [⟨"user", u⟩, ⟨"assistant", String.join (pre ++ post)⟩],
        persisted := some (st.messages ++
          [⟨"user", u⟩, ⟨"assistant", String.join (pre ++ post)⟩]),
        saves := st.saves ++ [st.messages ++
          [⟨"user", u⟩, ⟨"assistant", String.join (pre ++ post)⟩]],
        sent := st.sent ++ pre.map Envelope.stream,
        connected := false } ∧
    (websocket_loop st (Inbound.request "chat_message" (some u)
        ⟨pre.map FragEv.frag ++ FragEv.drop :: post.map FragEv.frag, res⟩ :: rest)).registry
      = false := by
  have hmain : websocket_loop st (Inbound.request "chat_message" (some u)
      ⟨pre.map FragEv.frag ++ FragEv.drop :: post.map FragEv.frag, res⟩ :: rest) =
      cleanup { st with
        messages := st.messages ++
          [⟨"user", u⟩, ⟨"assistant", String.join (pre ++ post)⟩],
        persisted := some (st.messages ++
          [⟨"user", u⟩, ⟨"assistant", String.join (pre ++ post)⟩]),
        saves := st.saves ++ [st.messages ++
          [⟨"user", u⟩, ⟨"assistant", String.join (pre ++ post)⟩]],
        sent := st.sent ++ pre.map Envelope.stream,
        connected := false } := by
    rw [websocket_loop_chat st u _ rest hc hu]
    rw [turnCore_drop st u pre post res hc]
    have hne : (String.join (pre ++ post) == "") = false :=
      beq_eq_false_iff_ne.mpr hacc
    simp only [hne, Bool.false_eq_true, if_false]
    rw [websocket_loop_not_connected _ rest rfl]
    simp [persistTurn, List.append_assoc, cleanup]
  exact ⟨hmain, by rw [hmain]; rfl⟩

/-- A chat turn only appends the user message to the in-memory transcript
and touches `sent` / `connected`; it never touches the persisted record,
the save log, the warning count or the registry. -/
theorem turnCore_shape (st : SessState) (u : String) (gw : GatewayTurn) :
    ∃ se co, (turnCore st u gw).1 =
      { st with messages := st.messages ++ [⟨"user", u⟩], sent := se, connected := co } := by
  obtain ⟨evs, res⟩ := gw
  obtain ⟨se1, co1, h1⟩ :=
    relay_shape evs { st with messages := st.messages ++ [⟨"user", u⟩] } ""
  cases res with
  | ok =>
    obtain ⟨se2, h2⟩ := send_ws_message_shape
      { st with messages := st.messages ++ [⟨"user", u⟩], sent := se1, connected := co1 }
      (Envelope.stream "[DONE]")
    refine ⟨se2, co1, ?_⟩
    show send_ws_message
      (relay { st with messages := st.messages ++ [⟨"user", u⟩] } "" evs).1
      (Envelope.stream "[DONE]") = _
    rw [h1, h2]
  | failed d =>
    obtain ⟨se2, h2⟩ := send_ws_message_shape
      { st with messages := st.messages ++ [⟨"user", u⟩], sent := se1, connected := co1 }
      (Envelope.error d)
    refine ⟨se2, co1, ?_⟩
    show send_ws_message
      (relay { st with messages := st.messages ++ [⟨"user", u⟩] } "" evs).1
      (Envelope.error d) = _
    rw [h1, h2]

theorem websocket_loop_malformed (st : SessState) (rest : List Inbound)
    (hc : st.connected = true) :
    websocket_loop st (Inbound.malformedJson :: rest) =
      websocket_loop (send_ws_message st (Envelope.error "Invalid JSON format.")) rest := by
  simp [websocket_loop, hc]

theorem websocket_loop_noType (st : SessState) (rest : List Inbound)
    (hc : st.connected = true) :
    websocket_loop st (Inbound.noTypeField :: rest) =
      websocket_loop (send_ws_message st (Envelope.error "Invalid message structure.")) rest := by
  simp [websocket_loop, hc]

theorem websocket_loop_other (st : SessState) (rest : List Inbound) (t : String)
    (c : Option String) (gw : GatewayTurn) (hc : st.connected = true)
    (hreq : (t == "chat_message" && isTruthy c) = false) :
    websocket_loop st (Inbound.request t c gw :: rest) = websocket_loop st rest := by
  simp [websocket_loop, hc, hreq]

theorem send_ws_message_saves (st : SessState) (e : Envelope) :
    (send_ws_message st e).saves = st.saves := by
  obtain ⟨se, h⟩ := send_ws_message_shape st e
  rw [h]

/-- None of the three outcomes of the empty-buffer drain branch ever calls
`save_chat_history`. -/
theorem drain_case_saves (st : SessState) (u : String) (gw : GatewayTurn)
    (rest : List Inbound) :
    ((match drainAll rest with
      | none => cleanup (send_ws_message (turnCore st u gw).1
          (Envelope.error "A critical server error occurred. Connection closing."))
      | some true => cleanup (turnCore st u gw).1
      | some false => cleanup { (turnCore st u gw).1 with
          warnings := (turnCore st u gw).1.warnings + 1 }) : SessState).saves
      = st.saves := by
  obtain ⟨se, co, hshape⟩ := turnCore_shape st u gw
  cases drainAll rest with
  | none => simp [cleanup, send_ws_message_saves, hshape]
  | some b => cases b <;> simp [cleanup, hshape]

/-- Every save the receive loop ever performs appends exactly one user
message followed by exactly one assistant message to the state that was
last saved (or initially loaded). -/
theorem websocket_loop_saves (q : List Inbound) :
    ∀ st : SessState, ∃ delta,
      (websocket_loop st q).saves = st.saves ++ delta ∧
      savesChain st.messages delta := by
  induction q with
  | nil =>
    intro st
    exact ⟨[], by simp [websocket_loop, cleanup], trivial⟩
  | cons ev rest ih =>
    intro st
    by_cases hc : st.connected = true
    · cases ev with
      | malformedJson =>
        obtain ⟨se, hse⟩ := send_ws_message_shape st (Envelope.error "Invalid JSON format.")
        obtain ⟨delta, h1, h2⟩ :=
          ih (send_ws_message st (Envelope.error "Invalid JSON format."))
        rw [hse] at h1 h2
        exact ⟨delta, by rw [websocket_loop_malformed st rest hc, hse]; exact h1, h2⟩
      | noTypeField =>
        obtain ⟨se, hse⟩ :=
          send_ws_message_shape st (Envelope.error "Invalid message structure.")
        obtain ⟨delta, h1, h2⟩ :=
          ih (send_ws_message st (Envelope.error "Invalid message structure."))
        rw [hse] at h1 h2
        exact ⟨delta, by rw [websocket_loop_noType st rest hc, hse]; exact h1, h2⟩
      | request t c gw =>
        by_cases hreq : (t == "chat_message" && isTruthy c) = true
        · have hand := hreq
          rw [Bool.and_eq_true] at hand
          have ht : t = "chat_message" := by simpa using hand.1
          obtain ⟨u, hcu, hu⟩ : ∃ u, c = some u ∧ u ≠ "" := by
            cases c with
            | none => simp [isTruthy] at hand
            | some s =>
              refine ⟨s, rfl, ?_⟩
              simpa [isTruthy] using hand.2
          subst ht
          subst hcu
          by_cases hr : ((turnCore st u gw).2 == "") = true
          · refine ⟨[], ?_, trivial⟩
            rw [websocket_loop_chat st u gw rest hc hu, if_pos hr,
              drain_case_saves st u gw rest, List.append_nil]
          · obtain ⟨se, co, hshape⟩ := turnCore_shape st u gw
            obtain ⟨delta, h1, h2⟩ :=
              ih (persistTurn (turnCore st u gw).1 (turnCore st u gw).2)
            have hm : (persistTurn (turnCore st u gw).1 (turnCore st u gw).2).messages =
                st.messages ++ [⟨"user", u⟩, ⟨"assistant", (turnCore st u gw).2⟩] := by
              simp [persistTurn, hshape, List.append_assoc]
            have hs : (persistTurn (turnCore st u gw).1 (turnCore st u gw).2).saves =
                st.saves ++
                  [st.messages ++ [⟨"user", u⟩, ⟨"assistant", (turnCore st u gw).2⟩]] := by
              simp [persistTurn, hshape, List.append_assoc]
            rw [hm] at h2
            rw [hs] at h1
            refine ⟨(st.messages ++
              [⟨"user", u⟩, ⟨"assistant", (turnCore st u gw).2⟩]) :: delta, ?_, ?_⟩
            · rw [websocket_loop_chat st u gw rest hc hu, if_neg hr, h1,
                List.append_assoc]
              rfl
            · exact ⟨⟨u, (turnCore st u gw).2, rfl⟩, h2⟩
        · have hreq2 : (t == "chat_message" && isTruthy c) = false := by
            simpa using hreq
          obtain ⟨delta, h1, h2⟩ := ih st
          exact ⟨delta, by rw [websocket_loop_other st rest t c gw hc hreq2]; exact h1, h2⟩
    · have hc2 : st.connected = false := by simpa using hc
      exact ⟨[], by rw [websocket_loop_not_connected st _ hc2]; simp [cleanup], trivial⟩

/-- The append-log discipline entails prefix monotonicity of the sequence
of persisted transcripts. -/
theorem savesChain_chain (l : List (List Message)) :
    ∀ base : List Message, savesChain base l →
      List.Chain' (fun a b => a <+: b) (base :: l) := by
  induction l with
  | nil => intro base h; simp
  | cons s rest ih =>
    intro base h
    obtain ⟨⟨u, a, hs⟩, hrest⟩ := h
    rw [List.chain'_cons]
    exact ⟨hs ▸ List.prefix_append base _, ih s hrest⟩

/-- C7: over any whole session run, the persisted transcript evolves as an
append-only log: every save appends exactly one user message followed by
exactly one assistant message to the previously persisted list (so no
persisted message is ever reordered, modified or deleted), and each
persisted transcript is a prefix of every later one. -/
theorem spec_c7 (prev : Option (List Message)) (q : List Inbound) :
    savesChain (prev.getD []) (websocket_loop (initSession prev) q).saves ∧
    List.Chain' (fun a b => a <+: b)
      ((prev.getD []) :: (websocket_loop (initSession prev) q).saves) := by
  obtain ⟨delta, h1, h2⟩ := websocket_loop_saves q (initSession prev)
  have hsaves : (websocket_loop (initSession prev) q).saves = delta := by
    simpa [initSession] using h1
  rw [hsaves]
  exact ⟨h2, savesChain_chain delta (prev.getD []) h2⟩

/-- C3 counterexample: the claim as stated fails when the stream raises
after yielding one fragment that is empty. The accumulated buffer is empty,
so the empty-response branch drains the remaining inbound queue: the next
request is swallowed (its fragment "Par" is never relayed, nothing is ever
persisted), so the coordinator does not return to awaiting requests. -/
theorem spec_c3_counterexample :
    (websocket_loop (initSession none)
      [Inbound.request "chat_message" (some "a")
        ⟨[FragEv.frag ""], GatewayResult.failed "X"⟩,
       Inbound.request "chat_message" (some "b")
        ⟨[FragEv.frag "Par"], GatewayResult.ok⟩]).sent
      = [Envelope.stream "", Envelope.error "X"] ∧
    Envelope.stream "Par" ∉ (websocket_loop (initSession none)
      [Inbound.request "chat_message" (some "a")
        ⟨[FragEv.frag ""], GatewayResult.failed "X"⟩,
       Inbound.request "chat_message" (some "b")
        ⟨[FragEv.frag "Par"], GatewayResult.ok⟩]).sent ∧
    (websocket_loop (initSession none)
      [Inbound.request "chat_message" (some "a")
        ⟨[FragEv.frag ""], GatewayResult.failed "X"⟩,
       Inbound.request "chat_message" (some "b")
        ⟨[FragEv.frag "Par"], GatewayResult.ok⟩]).persisted = none := by
  refine ⟨by decide, by decide, by decide⟩

/-- C3 witness: one mid-stream failure after the non-empty fragment "Par",
evaluated end to end. -/
theorem spec_c3_witness :
    websocket_loop (initSession none)
      [Inbound.request "chat_message" (some "hi")
        ⟨[FragEv.frag "Par"], GatewayResult.failed "boom"⟩]
    = { messages := [⟨"user", "hi"⟩, ⟨"assistant", "Par"⟩],
        persisted := some [⟨"user", "hi"⟩, ⟨"assistant", "Par"⟩],
        saves := [[⟨"user", "hi"⟩, ⟨"assistant", "Par"⟩]],
        sent := [Envelope.stream "Par", Envelope.error "boom"],
        connected := true, warnings := 0, registry := false } :=
  (spec_c3_amended (initSession none) "hi" ["Par"] "boom" []
    rfl (by decide) (by decide)).trans (by decide)

/-- C4 counterexample: on a normal gateway end with zero fragments the
client does receive an envelope — the `"[DONE]"` terminator — and the
session is not ready for the next inbound request: the second request is
drained unprocessed (its fragment "N" never relayed, nothing persisted),
though the warning is logged. -/
theorem spec_c4_counterexample :
    (websocket_loop (initSession none)
      [Inbound.request "chat_message" (some "hi") ⟨[], GatewayResult.ok⟩,
       Inbound.request "chat_message" (some "next")
        ⟨[FragEv.frag "N"], GatewayResult.ok⟩]).sent
      = [Envelope.stream "[DONE]"] ∧
    Envelope.stream "N" ∉ (websocket_loop (initSession none)
      [Inbound.request "chat_message" (some "hi") ⟨[], GatewayResult.ok⟩,
       Inbound.request "chat_message" (some "next")
        ⟨[FragEv.frag "N"], GatewayResult.ok⟩]).sent ∧
    (websocket_loop (initSession none)
      [Inbound.request "chat_message" (some "hi") ⟨[], GatewayResult.ok⟩,
       Inbound.request "chat_message" (some "next")
        ⟨[FragEv.frag "N"], GatewayResult.ok⟩]).warnings = 1 ∧
    (websocket_loop (initSession none)
      [Inbound.request "chat_message" (some "hi") ⟨[], GatewayResult.ok⟩,
       Inbound.request "chat_message" (some "next")
        ⟨[FragEv.frag "N"], GatewayResult.ok⟩]).persisted = none := by
  refine ⟨by decide, by decide, by decide, by decide⟩

/-- C4 witness: one empty-response turn, evaluated end to end. -/
theorem spec_c4_witness :
    websocket_loop (initSession none)
      [Inbound.request "chat_message" (some "hi") ⟨[], GatewayResult.ok⟩]
    = { messages := [⟨"user", "hi"⟩], persisted := none, saves := [],
        sent := [Envelope.stream "[DONE]"], connected := true, warnings := 1,
        registry := false } :=
  (spec_c4_amended (initSession none) "hi" [] rfl (by decide) (by decide)).trans
    (by decide)

/-- C6 counterexample: the claim as stated fails on a turn whose only
fragment before (or after) the drop is the empty chunk: a fragment was
accumulated, yet nothing is persisted — the accumulated content is empty,
so the save is skipped (the turn's user message is not even saved). -/
theorem spec_c6_counterexample :
    (websocket_loop (initSession none)
      [Inbound.request "chat_message" (some "a")
        ⟨[FragEv.frag "", FragEv.drop], GatewayResult.ok⟩]).persisted = none ∧
    (websocket_loop (initSession none)
      [Inbound.request "chat_message" (some "a")
        ⟨[FragEv.frag "", FragEv.drop], GatewayResult.ok⟩]).registry = false := by
  refine ⟨by decide, by decide⟩

/-- C6 witness: a drop between the fragments "Pa" and "rt", evaluated end
to end: only "Pa" was delivered, the full accumulated "Part" is persisted,
and the registry entry is gone. -/
theorem spec_c6_witness :
    websocket_loop (initSession none)
      [Inbound.request "chat_message" (some "hi")
        ⟨[FragEv.frag "Pa", FragEv.drop, FragEv.frag "rt"], GatewayResult.ok⟩]
    = { messages := [⟨"user", "hi"⟩, ⟨"assistant", "Part"⟩],
        persisted := some [⟨"user", "hi"⟩, ⟨"assistant", "Part"⟩],
        saves := [[⟨"user", "hi"⟩, ⟨"assistant", "Part"⟩]],
        sent := [Envelope.stream "Pa"], connected := false, warnings := 0,
        registry := false } :=
  ((spec_c6_amended (initSession none) "hi" ["Pa"] ["rt"] GatewayResult.ok []
    rfl (by decide) (by decide)).1).trans (by decide)

end ChatStream